import Mathlib

/-!
Verification development for the SourceSim plugin
(`src/Source/SourceSimThread.cpp` and `src/Source/SourceThread.cpp`).

The two C++ files are embedded shallowly:

* JUCE `OwnedArray` collections become Lean `List`s;
* pointers from a channel to its owning `DataStream` become the stream
  value itself (within one build all streams are distinct, because their
  identifiers `SP<i>_AP`, `SP<i>_LFP`, `NI<j>` are pairwise distinct);
* the pointer from a source to its `DataBuffer` becomes the index of the
  buffer in the `sourceBuffers` collection (buffers are not value-distinct,
  so an index models pointer identity faithfully);
* the float sample rates `30000.0f`, `2500.0f` are the exact integers
  30000 and 2500; the bit-volts literal `0.195f` is stored as 195
  (thousandths); the float clock tolerance is modelled as a rational,
  no arithmetic is ever performed on it;
* JUCE threads are modelled by two flags per source: `running`
  (set by `startThread`) and `exitRequested` (set by
  `signalThreadShouldExit`).  Whether `startThread` manages to launch the
  OS thread is an environment choice, passed in as an oracle
  `launchOk : Nat → Bool`; the C++ code never observes that outcome.
-/

/-- `ContinuousChannel::Type` values used by the plugin. -/
inductive ContinuousChannelType
  | ELECTRODE
  | ADC
deriving DecidableEq, Repr

/-- `EventChannel::Type` values used by the plugin. -/
inductive EventChannelType
  | TTL
deriving DecidableEq, Repr

/-- `SimulatedSourceType` from `SourceSimThread.cpp`; also reused as the
band tag for the `NPX_AP_BAND` / `NPX_LFP_BAND` / `NIDAQ` subclasses of
`SourceThread.cpp`. -/
inductive SimulatedSourceType
  | AP_BAND
  | LFP_BAND
  | NIDAQ
deriving DecidableEq, Repr

/-- `DataStream::Settings`: name, description, identifier, sample rate. -/
structure DataStream where
  name : String
  description : String
  identifier : String
  sampleRate : Nat
deriving DecidableEq, Repr

/-- `ContinuousChannel::Settings`: type, name, description, identifier,
bit-volts scale (stored as thousandths of the `0.195f` literal), and the
owning stream (`dataStreams->getLast()` at creation time). -/
structure ContinuousChannel where
  channelType : ContinuousChannelType
  name : String
  description : String
  identifier : String
  bitVoltsThousandths : Nat
  stream : DataStream
deriving DecidableEq, Repr

/-- `EventChannel::Settings`: type, name, description, identifier, and the
owning stream (`dataStreams->getLast()` at creation time). -/
structure EventChannel where
  channelType : EventChannelType
  name : String
  description : String
  identifier : String
  stream : DataStream
deriving DecidableEq, Repr

/-- `DataBuffer(numChannels, size)`: the ring buffer.  `data` is the
sample content relevant to `clear()`; it is empty at construction. -/
structure DataBuffer where
  numChannels : Int
  bufferSize : Nat
  data : List Int
deriving DecidableEq, Repr

/-- Resets the buffer content: `DataBuffer::clear()`. -/
def DataBuffer.clearData (b : DataBuffer) : DataBuffer :=
  { b with data := [] }

/-- `SimulatedSource(name, numChannels, sampleRate, type)` from
`SourceSimThread`.  `bufferIdx` is the `buffer` member (index into
`sourceBuffers`, `none` until assigned).  Modelled from the spec: the
runtime fields — `running`/`exitRequested` thread flags, the sync-clock
timer state `timerRunning` and its `clkFreq`/`clkTol` parameters — live in
the class header, which is not part of the two given source files; the
spec describes a freshly built source as idle with its sync clock off. -/
structure SimulatedSource where
  name : String
  numChannels : Int
  sampleRate : Nat
  sourceType : SimulatedSourceType
  bufferIdx : Option Nat
  running : Bool
  exitRequested : Bool
  timerRunning : Bool
  clkFreq : Int
  clkTol : Rat
deriving DecidableEq, Repr

/-- `PluginSettingsObject` as filled in by `sse->getSettings(settings)`. -/
structure PluginSettingsObject where
  numProbes : Int
  channelsPerProbe : Int
  numNIDAQ : Int
  channelsPerNIDAQ : Int
deriving DecidableEq, Repr

/-- The collections mutated by `SourceSimThread::updateSettings`, plus the
thread's own `sources` and `sourceBuffers` members.  `spikeChannels`,
`devices` and `configurationObjects` are only ever cleared, never filled,
so their element type is irrelevant. -/
structure SimState where
  dataStreams : List DataStream
  eventChannels : List EventChannel
  continuousChannels : List ContinuousChannel
  spikeChannels : List Unit
  devices : List Unit
  configurationObjects : List Unit
  sources : List SimulatedSource
  sourceBuffers : List DataBuffer
deriving DecidableEq, Repr

/-- The `probeNames` string array (16 entries, A through P). -/
def probeNames : List String :=
  ["A", "B", "C", "D", "E", "F", "G", "H", "I", "J", "K", "L", "M", "N", "O", "P"]

/-- `probeNames[i]`.  JUCE `StringArray::operator[]` returns the empty
string for an out-of-range index. -/
def probeLetter (i : Nat) : String :=
  probeNames.getD i ""

/-- The AP-band `DataStream` for probe `i`. -/
def apStream (i : Nat) : DataStream :=
  { name := "Probe-" ++ probeLetter i ++ "-AP"
    description := "Neural data sampled @ 30kHz "
    identifier := "SP" ++ toString i ++ "_AP"
    sampleRate := 30000 }

/-- The LFP-band `DataStream` for probe `i`. -/
def lfpStream (i : Nat) : DataStream :=
  { name := "Probe-" ++ probeLetter i ++ "-LFP"
    description := "Neural data sampled @ 2.5kHz "
    identifier := "SP" ++ toString i ++ "_LFP"
    sampleRate := 2500 }

/-- The NIDAQ `DataStream` for auxiliary device `i`. -/
def niStream (i : Nat) : DataStream :=
  { name := "Dev" ++ toString i
    description := "NIDAQ @ 30 kHz "
    identifier := "NI" ++ toString i
    sampleRate := 30000 }

/-- `SimulatedSource(apBandName, channelsPerProbe, 30000.0f, AP_BAND)`,
with its `buffer` member pointing at buffer index `bufIdx`. -/
def apSource (cfg : PluginSettingsObject) (i bufIdx : Nat) : SimulatedSource :=
  { name := (apStream i).name
    numChannels := cfg.channelsPerProbe
    sampleRate := 30000
    sourceType := .AP_BAND
    bufferIdx := some bufIdx
    running := false
    exitRequested := false
    timerRunning := false
    clkFreq := 0
    clkTol := 0 }

/-- `SimulatedSource(lfpBandName, channelsPerProbe, 2500.0, LFP_BAND)`. -/
def lfpSource (cfg : PluginSettingsObject) (i bufIdx : Nat) : SimulatedSource :=
  { name := (lfpStream i).name
    numChannels := cfg.channelsPerProbe
    sampleRate := 2500
    sourceType := .LFP_BAND
    bufferIdx := some bufIdx
    running := false
    exitRequested := false
    timerRunning := false
    clkFreq := 0
    clkTol := 0 }

/-- `SimulatedSource(nidaqName, channelsPerNIDAQ, 30000.0f, NIDAQ)`. -/
def niSource (cfg : PluginSettingsObject) (i bufIdx : Nat) : SimulatedSource :=
  { name := (niStream i).name
    numChannels := cfg.channelsPerNIDAQ
    sampleRate := 30000
    sourceType := .NIDAQ
    bufferIdx := some bufIdx
    running := false
    exitRequested := false
    timerRunning := false
    clkFreq := 0
    clkTol := 0 }

/-- `DataBuffer(channelsPerProbe, 48000)`. -/
def probeBuffer (cfg : PluginSettingsObject) : DataBuffer :=
  { numChannels := cfg.channelsPerProbe, bufferSize := 48000, data := [] }

/-- `DataBuffer(channelsPerNIDAQ, 48000)`. -/
def niBuffer (cfg : PluginSettingsObject) : DataBuffer :=
  { numChannels := cfg.channelsPerNIDAQ, bufferSize := 48000, data := [] }

/-- AP electrode channel `j` of probe `i`. -/
def apChannel (i j : Nat) : ContinuousChannel :=
  { channelType := .ELECTRODE
    name := "CH" ++ toString (j + 1)
    description := "AP voltage from electrode " ++ toString (j + 1)
    identifier := "source"
    bitVoltsThousandths := 195
    stream := apStream i }

/-- LFP electrode channel `j` of probe `i`. -/
def lfpChannel (i j : Nat) : ContinuousChannel :=
  { channelType := .ELECTRODE
    name := "CH" ++ toString (j + 1)
    description := "LFP voltage from electrode " ++ toString (j + 1)
    identifier := "source"
    bitVoltsThousandths := 195
    stream := lfpStream i }

/-- ADC channel `j` of auxiliary device `i`. -/
def niChannel (i j : Nat) : ContinuousChannel :=
  { channelType := .ADC
    name := "CH" ++ toString (j + 1)
    description := "ADC voltage from channel " ++ toString (j + 1)
    identifier := "source"
    bitVoltsThousandths := 195
    stream := niStream i }

/-- The AP sync line of probe `i`. -/
def apSync (i : Nat) : EventChannel :=
  { channelType := .TTL
    name := "AP Sync Line"
    description := "Synchronization signal from the AP band of simulated probe " ++ toString i
    identifier := "probe.sync"
    stream := apStream i }

/-- The LFP sync line of probe `i`. -/
def lfpSync (i : Nat) : EventChannel :=
  { channelType := .TTL
    name := "LFP Sync Line"
    description := "Synchronization signal from the LFP band of simulated probe " ++ toString i
    identifier := "probe.sync"
    stream := lfpStream i }

/-- The NIDAQ sync line of auxiliary device `i`. -/
def niSync (i : Nat) : EventChannel :=
  { channelType := .TTL
    name := "NIDAQ Sync Line"
    description := "Synchronization signal from the NIDAQ " ++ toString i
    identifier := "probe.sync"
    stream := niStream i }

/-- One iteration of the probe loop of `SourceSimThread::updateSettings`
(lines 80-172): adds the AP stream, its source and buffer (the
`sources.add / sourceBuffers.add / sources.getLast()->buffer =
sourceBuffers.getLast()` triple is embedded by appending the source with
its buffer index already set to the index the buffer receives), the
`channelsPerProbe` AP electrode channels, the AP sync line, and then the
same for the LFP band.  The per-list interleaving of the C++ body is
preserved: each collection receives its AP entries before its LFP
entries. -/
def addProbe (cfg : PluginSettingsObject) (s : SimState) (i : Nat) : SimState :=
  let n := s.sourceBuffers.length
  { s with
    dataStreams := s.dataStreams ++ [apStream i, lfpStream i]
    sources := s.sources ++ [apSource cfg i n, lfpSource cfg i (n + 1)]
    sourceBuffers := s.sourceBuffers ++ [probeBuffer cfg, probeBuffer cfg]
    continuousChannels := s.continuousChannels
      ++ (List.range cfg.channelsPerProbe.toNat).map (apChannel i)
      ++ (List.range cfg.channelsPerProbe.toNat).map (lfpChannel i)
    eventChannels := s.eventChannels ++ [apSync i, lfpSync i] }

/-- One iteration of the NIDAQ loop of `SourceSimThread::updateSettings`
(lines 174-222). -/
def addNIDAQ (cfg : PluginSettingsObject) (s : SimState) (i : Nat) : SimState :=
  let n := s.sourceBuffers.length
  { s with
    dataStreams := s.dataStreams ++ [niStream i]
    sources := s.sources ++ [niSource cfg i n]
    sourceBuffers := s.sourceBuffers ++ [niBuffer cfg]
    continuousChannels := s.continuousChannels
      ++ (List.range cfg.channelsPerNIDAQ.toNat).map (niChannel i)
    eventChannels := s.eventChannels ++ [niSync i] }

/-- `SourceSimThread::updateSettings`: clear every collection, then run
the probe loop and the NIDAQ loop.  A C++ `for (int i = 0; i < n; i++)`
with `int` bound `n` executes `n.toNat` iterations (none when `n` is
negative). -/
def SourceSimThread.updateSettings (prev : SimState) (cfg : PluginSettingsObject) : SimState :=
  let s0 : SimState :=
    { prev with
      dataStreams := []
      eventChannels := []
      continuousChannels := []
      spikeChannels := []
      devices := []
      configurationObjects := []
      sources := []
      sourceBuffers := [] }
  let s1 := (List.range cfg.numProbes.toNat).foldl (addProbe cfg) s0
  (List.range cfg.numNIDAQ.toNat).foldl (addNIDAQ cfg) s1

/-- Clears the buffer at index `k`, leaving every other buffer untouched
(`source->buffer->clear()` where `buffer` is the `k`-th entry of
`sourceBuffers`). -/
def clearAt : List DataBuffer → Nat → List DataBuffer
  | [], _ => []
  | b :: bs, 0 => b.clearData :: bs
  | b :: bs, k + 1 => b :: clearAt bs k

/-- The first loop of `SourceSimThread::startAcquisition`:
`for (auto source : sources) source->buffer->clear();`.  A source whose
buffer was never assigned would dereference null in C++; such a source
clears nothing here (no built topology produces one). -/
def clearSourceBuffers (srcs : List SimulatedSource) (bufs : List DataBuffer) :
    List DataBuffer :=
  srcs.foldl
    (fun acc src =>
      match src.bufferIdx with
      | some k => clearAt acc k
      | none => acc) bufs

/-- The second loop of `SourceSimThread::startAcquisition`:
`for (auto source : sources) source->startThread();`.  `i0` is the index
of the first source in the list; source `i` becomes running exactly when
the launch oracle grants it. -/
def startAll (launchOk : Nat → Bool) : Nat → List SimulatedSource → List SimulatedSource
  | _, [] => []
  | i, src :: rest =>
    (if launchOk i then { src with running := true } else src) :: startAll launchOk (i + 1) rest

/-- `SourceSimThread::startAcquisition`: clear each source's buffer, then
start each source's thread, and unconditionally `return true`. -/
def SourceSimThread.startAcquisition (launchOk : Nat → Bool) (s : SimState) :
    SimState × Bool :=
  let bufs := clearSourceBuffers s.sources s.sourceBuffers
  let srcs := startAll launchOk 0 s.sources
  ({ s with sourceBuffers := bufs, sources := srcs }, true)

/-- `SourceSimThread::stopAcquisition`: signal every source thread to
exit, `return true`. -/
def SourceSimThread.stopAcquisition (s : SimState) : SimState × Bool :=
  ({ s with sources := s.sources.map fun src => { src with exitRequested := true } }, true)

/-- `SourceSimThread::updateClkFreq(freq, tol)`: the body only prints to
stdout — the loop that would forward `freq`/`tol` to the sources is
commented out — so the state is returned unchanged. -/
def SourceSimThread.updateClkFreq (freq : Int) (tol : Rat) (s : SimState) : SimState :=
  s

/-- `SourceSimThread::foundInputSource()`: always true. -/
def SourceSimThread.foundInputSource (s : SimState) : Bool :=
  true

/-- A source of `SourceThread.cpp` (`NPX_AP_BAND`, `NPX_LFP_BAND` or
`NIDAQ`, tagged by `sourceType`).  Modelled from the spec: the class
bodies live in the header, which is not among the given source files; the
constructor stores the channel count, the band fixes the nominal rate
(AP and auxiliary 30 kHz, LFP 2.5 kHz), and a fresh source is idle with
its sync clock off.  `SimulatedSource.updateClkFreq` below and the
`timerRunning` flag are modelled from the spec sentence
"updates the nominal toggle rate and accepted jitter for a source's
sync-clock; only meaningful for sources whose sync clock is active". -/
structure STSource where
  numChannels : Int
  sampleRate : Nat
  sourceType : SimulatedSourceType
  bufferIdx : Option Nat
  running : Bool
  exitRequested : Bool
  timerRunning : Bool
  clkFreq : Int
  clkTol : Rat
deriving DecidableEq, Repr

/-- `new NPX_AP_BAND(ch)` bound to buffer `bufIdx`. -/
def npxAP (ch : Int) (bufIdx : Nat) : STSource :=
  { numChannels := ch, sampleRate := 30000, sourceType := .AP_BAND
    bufferIdx := some bufIdx, running := false, exitRequested := false
    timerRunning := false, clkFreq := 0, clkTol := 0 }

/-- `new NPX_LFP_BAND(ch)` bound to buffer `bufIdx`. -/
def npxLFP (ch : Int) (bufIdx : Nat) : STSource :=
  { numChannels := ch, sampleRate := 2500, sourceType := .LFP_BAND
    bufferIdx := some bufIdx, running := false, exitRequested := false
    timerRunning := false, clkFreq := 0, clkTol := 0 }

/-- `new NIDAQ(ch)` bound to buffer `bufIdx`. -/
def nidaqSource (ch : Int) (bufIdx : Nat) : STSource :=
  { numChannels := ch, sampleRate := 30000, sourceType := .NIDAQ
    bufferIdx := some bufIdx, running := false, exitRequested := false
    timerRunning := false, clkFreq := 0, clkTol := 0 }

/-- `source->updateClkFreq(freq, tol)`.  Modelled from the spec: sets the
nominal toggle rate and the accepted jitter of the source's sync clock. -/
def STSource.setClkFreq (src : STSource) (freq : Int) (tol : Rat) : STSource :=
  { src with clkFreq := freq, clkTol := tol }

/-- The member state of `SourceThread`: the four configuration counters
set in the constructor (`NUM_PROBES 6`, `AP_CHANNELS 384`,
`NUM_NI_DEVICES 1`, `NIDAQ_CHANNELS 8`) and mutated by the
`updateNPXChannels` / `updateNumProbes` / `updateNIDAQChannels` /
`updateNIDAQDeviceCount` setters, the `sources` and `sourceBuffers`
collections, and the thread flags of the `SourceThread` object itself
(it is a `Thread` too: `startAcquisition` calls `this->startThread()`). -/
structure STState where
  numProbes : Int
  numChannelsPerProbe : Int
  numNIDevices : Int
  numChannelsPerNIDAQDevice : Int
  sources : List STSource
  sourceBuffers : List DataBuffer
  threadRunning : Bool
  threadExitRequested : Bool
deriving DecidableEq, Repr

/-- One iteration of the probe loop of `SourceThread::generateBuffers`
(lines 114-127): AP source plus its `DataBuffer(numChannels, 1000)`, then
the LFP pair; the `sources.getLast()->buffer = sourceBuffers.getLast()`
binding is embedded by appending each source with the index its buffer
receives. -/
def addProbeST (st : STState) (i : Nat) : STState :=
  let n := st.sourceBuffers.length
  { st with
    sources := st.sources
      ++ [npxAP st.numChannelsPerProbe n, npxLFP st.numChannelsPerProbe (n + 1)]
    sourceBuffers := st.sourceBuffers
      ++ [{ numChannels := st.numChannelsPerProbe, bufferSize := 1000, data := [] },
          { numChannels := st.numChannelsPerProbe, bufferSize := 1000, data := [] }] }

/-- One iteration of the NIDAQ loop of `SourceThread::generateBuffers`
(lines 130-135). -/
def addNIDAQST (st : STState) (i : Nat) : STState :=
  let n := st.sourceBuffers.length
  { st with
    sources := st.sources ++ [nidaqSource st.numChannelsPerNIDAQDevice n]
    sourceBuffers := st.sourceBuffers
      ++ [{ numChannels := st.numChannelsPerNIDAQDevice, bufferSize := 1000, data := [] }] }

/-- `SourceThread::generateBuffers`: clear `sources` and `sourceBuffers`,
then run the probe loop and the NIDAQ loop. -/
def SourceThread.generateBuffers (st : STState) : STState :=
  let st0 := { st with sources := ([] : List STSource), sourceBuffers := ([] : List DataBuffer) }
  let st1 := (List.range st.numProbes.toNat).foldl addProbeST st0
  (List.range st.numNIDevices.toNat).foldl addNIDAQST st1

/-- The state built by the `SourceThread` constructor: the four `#define`
defaults, then `generateBuffers()`. -/
def SourceThread.defaultState : STState :=
  SourceThread.generateBuffers
    { numProbes := 6, numChannelsPerProbe := 384, numNIDevices := 1
      numChannelsPerNIDAQDevice := 8, sources := [], sourceBuffers := []
      threadRunning := false, threadExitRequested := false }

/-- Clears the last buffer of the list (`sourceBuffers.getLast()->clear()`).
On an empty collection JUCE `getLast()` returns null and the C++ call
would be undefined; here the empty list is returned unchanged (no built
topology is empty). -/
def clearLast : List DataBuffer → List DataBuffer
  | [] => []
  | [b] => [b.clearData]
  | b :: bs => b :: clearLast bs

/-- `startThread` on the sources of `SourceThread`, by list position. -/
def startAllST (launchOk : Nat → Bool) : Nat → List STSource → List STSource
  | _, [] => []
  | i, src :: rest =>
    (if launchOk i then { src with running := true } else src) :: startAllST launchOk (i + 1) rest

/-- `SourceThread::startAcquisition`: clear only the last buffer, start
every source thread, start the controller's own thread, and
unconditionally `return true`. -/
def SourceThread.startAcquisition (launchOk : Nat → Bool) (st : STState) :
    STState × Bool :=
  ({ st with
      sourceBuffers := clearLast st.sourceBuffers
      sources := startAllST launchOk 0 st.sources
      threadRunning := true }, true)

/-- `SourceThread::stopAcquisition`: signal every source, then signal the
controller's own thread if it is running, `return true`. -/
def SourceThread.stopAcquisition (st : STState) : STState × Bool :=
  ({ st with
      sources := st.sources.map fun src => { src with exitRequested := true }
      threadExitRequested := if st.threadRunning then true else st.threadExitRequested }, true)

/-- `SourceThread::updateClkFreq(freq, tol)`: forwards `freq`/`tol` to
exactly the sources whose timer is running. -/
def SourceThread.updateClkFreq (freq : Int) (tol : Rat) (st : STState) : STState :=
  { st with
    sources := st.sources.map fun src =>
      if src.timerRunning then src.setClkFreq freq tol else src }

/-- `SourceThread::getNumTTLOutputs(subProcessorIdx)`. -/
def SourceThread.getNumTTLOutputs (st : STState) (subProcessorIdx : Int) : Int :=
  if subProcessorIdx < 2 * st.numProbes then 1 else st.numChannelsPerNIDAQDevice

/-- `SourceThread::foundInputSource()`: always true. -/
def SourceThread.foundInputSource (st : STState) : Bool :=
  true

/-- Erases the sync-clock parameters of a source, for stating that
`updateClkFreq` changes nothing else. -/
def STSource.eraseClk (src : STSource) : STSource :=
  { src with clkFreq := 0, clkTol := 0 }

/-- The stream list `updateSettings` is claimed to emit: for each probe
index `i` in order the AP stream then the LFP stream, and afterwards one
`Dev<j>` stream per auxiliary device. -/
def expectedDataStreams (cfg : PluginSettingsObject) : List DataStream :=
  ((List.range cfg.numProbes.toNat).flatMap fun i => [apStream i, lfpStream i])
    ++ (List.range cfg.numNIDAQ.toNat).map niStream

/-- The continuous-channel list `updateSettings` is claimed to emit:
per probe `channelsPerProbe` AP electrode channels then `channelsPerProbe`
LFP electrode channels, afterwards `channelsPerNIDAQ` ADC channels per
auxiliary device. -/
def expectedContinuousChannels (cfg : PluginSettingsObject) : List ContinuousChannel :=
  ((List.range cfg.numProbes.toNat).flatMap fun i =>
      (List.range cfg.channelsPerProbe.toNat).map (apChannel i)
        ++ (List.range cfg.channelsPerProbe.toNat).map (lfpChannel i))
    ++ ((List.range cfg.numNIDAQ.toNat).flatMap fun i =>
      (List.range cfg.channelsPerNIDAQ.toNat).map (niChannel i))

/-- The sync-line list `updateSettings` is claimed to emit: one TTL line
per stream, in stream order. -/
def expectedEventChannels (cfg : PluginSettingsObject) : List EventChannel :=
  ((List.range cfg.numProbes.toNat).flatMap fun i => [apSync i, lfpSync i])
    ++ (List.range cfg.numNIDAQ.toNat).map niSync

/-- The source list `updateSettings` builds: probe `i` contributes its AP
source bound to buffer `2*i` and its LFP source bound to buffer `2*i+1`;
auxiliary device `j` contributes a source bound to buffer
`2*numProbes + j`. -/
def expectedSources (cfg : PluginSettingsObject) : List SimulatedSource :=
  ((List.range cfg.numProbes.toNat).flatMap fun i =>
      [apSource cfg i (2 * i), lfpSource cfg i (2 * i + 1)])
    ++ (List.range cfg.numNIDAQ.toNat).map fun j =>
      niSource cfg j (2 * cfg.numProbes.toNat + j)

/-- The buffer list `updateSettings` builds: two 48000-sample probe
buffers per probe, then one 48000-sample buffer per auxiliary device. -/
def expectedBuffers (cfg : PluginSettingsObject) : List DataBuffer :=
  ((List.range cfg.numProbes.toNat).flatMap fun _ => [probeBuffer cfg, probeBuffer cfg])
    ++ (List.range cfg.numNIDAQ.toNat).map fun _ => niBuffer cfg

/-- The fully cleared collection state. -/
def clearedSimState : SimState :=
  { dataStreams := [], eventChannels := [], continuousChannels := []
    spikeChannels := [], devices := [], configurationObjects := []
    sources := [], sourceBuffers := [] }

/-- The configuration of the `numProbes = 17` scenario. -/
def cfg17 : PluginSettingsObject :=
  { numProbes := 17, channelsPerProbe := 1, numNIDAQ := 0, channelsPerNIDAQ := 0 }

/-- The source list `generateBuffers` builds: per probe an AP source bound
to buffer `2*i` and an LFP source bound to buffer `2*i+1`, then one NIDAQ
source per device bound to buffer `2*numProbes + j`. -/
def expectedSTSources (st : STState) : List STSource :=
  ((List.range st.numProbes.toNat).flatMap fun i =>
      [npxAP st.numChannelsPerProbe (2 * i), npxLFP st.numChannelsPerProbe (2 * i + 1)])
    ++ (List.range st.numNIDevices.toNat).map fun j =>
      nidaqSource st.numChannelsPerNIDAQDevice (2 * st.numProbes.toNat + j)

/-- The buffer list `generateBuffers` builds: all of capacity 1000. -/
def expectedSTBuffers (st : STState) : List DataBuffer :=
  ((List.range st.numProbes.toNat).flatMap fun _ =>
      [{ numChannels := st.numChannelsPerProbe, bufferSize := 1000, data := [] },
       { numChannels := st.numChannelsPerProbe, bufferSize := 1000, data := [] }])
    ++ (List.range st.numNIDevices.toNat).map fun _ =>
      { numChannels := st.numChannelsPerNIDAQDevice, bufferSize := 1000, data := [] }

/-- The sample content of buffer `k` (empty for an out-of-range index). -/
def bufferDataAt (bufs : List DataBuffer) (k : Nat) : List Int :=
  (bufs.map DataBuffer.data).getD k []

/-- A two-source `SourceThread` topology (one probe, no auxiliary device)
in which both ring buffers hold unread samples, as they do after a
previous acquisition run. -/
def dirtySTState : STState :=
  { numProbes := 1, numChannelsPerProbe := 2, numNIDevices := 0
    numChannelsPerNIDAQDevice := 0
    sources := [npxAP 2 0, npxLFP 2 1]
    sourceBuffers := [{ numChannels := 2, bufferSize := 1000, data := [5] },
                      { numChannels := 2, bufferSize := 1000, data := [7] }]
    threadRunning := false, threadExitRequested := false }

/-- A one-source `SourceSimThread` state whose generator is idle. -/
def idleSimState : SimState :=
  { clearedSimState with
    sources := [apSource { numProbes := 1, channelsPerProbe := 1, numNIDAQ := 0,
                           channelsPerNIDAQ := 0 } 0 0]
    sourceBuffers := [{ numChannels := 1, bufferSize := 48000, data := [] }] }

/-- A one-source `SourceSimThread` state whose source has an active sync
clock (`timerRunning = true`) with nominal frequency 0. -/
def activeClkSimState : SimState :=
  { clearedSimState with
    sources := [{ name := "Probe-A-AP", numChannels := 1, sampleRate := 30000
                  sourceType := .AP_BAND, bufferIdx := some 0, running := true
                  exitRequested := false, timerRunning := true, clkFreq := 0, clkTol := 0 }]
    sourceBuffers := [{ numChannels := 1, bufferSize := 48000, data := [] }] }

/-- A one-probe, two-channel configuration. -/
def cfgTwo : PluginSettingsObject :=
  { numProbes := 1, channelsPerProbe := 2, numNIDAQ := 0, channelsPerNIDAQ := 0 }

/-- A two-source `SourceSimThread` state, both generators idle, with
dirty buffers, for exercising `startAcquisition`. -/
def dirtySimState : SimState :=
  { clearedSimState with
    sources := [apSource cfgTwo 0 0, lfpSource cfgTwo 0 1]
    sourceBuffers := [{ numChannels := 2, bufferSize := 48000, data := [3] },
                      { numChannels := 2, bufferSize := 48000, data := [4] }] }

/-- A small concrete configuration used to instantiate the general
theorems: one probe with one channel, one auxiliary device with one
channel. -/
def cfgSmall : PluginSettingsObject :=
  { numProbes := 1, channelsPerProbe := 1, numNIDAQ := 1, channelsPerNIDAQ := 1 }

/-- A small concrete `SourceThread` member state. -/
def stSmall : STState :=
  { numProbes := 1, numChannelsPerProbe := 2, numNIDevices := 1
    numChannelsPerNIDAQDevice := 3, sources := [], sourceBuffers := []
    threadRunning := false, threadExitRequested := false }

/-! ## Closed forms of the two topology-building loops -/

theorem length_flatMap_pair {α β : Type} (l : List α) (f g : α → β) :
    (l.flatMap fun a => [f a, g a]).length = 2 * l.length := by
  induction l with
  | nil => simp
  | cons a l ih => simp [ih]; omega

theorem probeLoop_eq (cfg : PluginSettingsObject) (t : SimState) (n : Nat) :
    (List.range n).foldl (addProbe cfg) t =
    { t with
      dataStreams := t.dataStreams
        ++ ((List.range n).flatMap fun i => [apStream i, lfpStream i])
      eventChannels := t.eventChannels
        ++ ((List.range n).flatMap fun i => [apSync i, lfpSync i])
      continuousChannels := t.continuousChannels
        ++ ((List.range n).flatMap fun i =>
          (List.range cfg.channelsPerProbe.toNat).map (apChannel i)
            ++ (List.range cfg.channelsPerProbe.toNat).map (lfpChannel i))
      sources := t.sources ++ ((List.range n).flatMap fun i =>
        [apSource cfg i (t.sourceBuffers.length + 2 * i),
         lfpSource cfg i (t.sourceBuffers.length + 2 * i + 1)])
      sourceBuffers := t.sourceBuffers
        ++ ((List.range n).flatMap fun _ => [probeBuffer cfg, probeBuffer cfg]) } := by
  induction n with
  | zero => simp
  | succ n ih =>
    rw [List.range_succ, List.foldl_append, ih]
    have hlen : (t.sourceBuffers
        ++ ((List.range n).flatMap fun _ => [probeBuffer cfg, probeBuffer cfg])).length
        = t.sourceBuffers.length + 2 * n := by
      rw [List.length_append, length_flatMap_pair, List.length_range]
    simp only [List.foldl_cons, List.foldl_nil, addProbe, hlen]
    simp [List.range_succ, List.flatMap_append, List.append_assoc, Nat.mul_succ]

theorem nidaqLoop_eq (cfg : PluginSettingsObject) (t : SimState) (m : Nat) :
    (List.range m).foldl (addNIDAQ cfg) t =
    { t with
      dataStreams := t.dataStreams ++ (List.range m).map niStream
      eventChannels := t.eventChannels ++ (List.range m).map niSync
      continuousChannels := t.continuousChannels
        ++ ((List.range m).flatMap fun i =>
          (List.range cfg.channelsPerNIDAQ.toNat).map (niChannel i))
      sources := t.sources
        ++ (List.range m).map fun j => niSource cfg j (t.sourceBuffers.length + j)
      sourceBuffers := t.sourceBuffers ++ (List.range m).map fun _ => niBuffer cfg } := by
  induction m with
  | zero => simp
  | succ m ih =>
    rw [List.range_succ, List.foldl_append, ih]
    have hlen : (t.sourceBuffers ++ (List.range m).map fun _ => niBuffer cfg).length
        = t.sourceBuffers.length + m := by
      rw [List.length_append, List.length_map, List.length_range]
    simp only [List.foldl_cons, List.foldl_nil, addNIDAQ, hlen]
    simp [List.range_succ, List.flatMap_append, List.append_assoc]

theorem SourceSimThread.updateSettings_spec (prev : SimState) (cfg : PluginSettingsObject) :
    SourceSimThread.updateSettings prev cfg =
    { dataStreams := expectedDataStreams cfg
      eventChannels := expectedEventChannels cfg
      continuousChannels := expectedContinuousChannels cfg
      spikeChannels := []
      devices := []
      configurationObjects := []
      sources := expectedSources cfg
      sourceBuffers := expectedBuffers cfg } := by
  simp only [SourceSimThread.updateSettings, probeLoop_eq, nidaqLoop_eq,
    List.nil_append, List.length_nil, length_flatMap_pair, List.length_range,
    Nat.zero_add]
  simp [expectedDataStreams, expectedEventChannels, expectedContinuousChannels,
    expectedSources, expectedBuffers]

theorem stProbeLoop_eq (t : STState) (n : Nat) :
    (List.range n).foldl addProbeST t =
    { t with
      sources := t.sources ++ ((List.range n).flatMap fun i =>
        [npxAP t.numChannelsPerProbe (t.sourceBuffers.length + 2 * i),
         npxLFP t.numChannelsPerProbe (t.sourceBuffers.length + 2 * i + 1)])
      sourceBuffers := t.sourceBuffers ++ ((List.range n).flatMap fun _ =>
        [{ numChannels := t.numChannelsPerProbe, bufferSize := 1000, data := [] },
         { numChannels := t.numChannelsPerProbe, bufferSize := 1000, data := [] }]) } := by
  induction n with
  | zero => simp
  | succ n ih =>
    rw [List.range_succ, List.foldl_append, ih]
    have hlen : (t.sourceBuffers ++ ((List.range n).flatMap fun _ =>
        [({ numChannels := t.numChannelsPerProbe, bufferSize := 1000, data := [] } : DataBuffer),
         { numChannels := t.numChannelsPerProbe, bufferSize := 1000, data := [] }])).length
        = t.sourceBuffers.length + 2 * n := by
      rw [List.length_append, length_flatMap_pair, List.length_range]
    simp only [List.foldl_cons, List.foldl_nil, addProbeST, hlen]
    simp [List.range_succ, List.flatMap_append, List.append_assoc, Nat.mul_succ]

theorem stNidaqLoop_eq (t : STState) (m : Nat) :
    (List.range m).foldl addNIDAQST t =
    { t with
      sources := t.sources ++ (List.range m).map fun j =>
        nidaqSource t.numChannelsPerNIDAQDevice (t.sourceBuffers.length + j)
      sourceBuffers := t.sourceBuffers ++ (List.range m).map fun _ =>
        { numChannels := t.numChannelsPerNIDAQDevice, bufferSize := 1000, data := [] } } := by
  induction m with
  | zero => simp
  | succ m ih =>
    rw [List.range_succ, List.foldl_append, ih]
    have hlen : (t.sourceBuffers ++ (List.range m).map fun _ =>
        ({ numChannels := t.numChannelsPerNIDAQDevice, bufferSize := 1000, data := [] } : DataBuffer)).length
        = t.sourceBuffers.length + m := by
      rw [List.length_append, List.length_map, List.length_range]
    simp only [List.foldl_cons, List.foldl_nil, addNIDAQST, hlen]
    simp [List.range_succ, List.append_assoc]

theorem SourceThread.generateBuffers_spec (st : STState) :
    SourceThread.generateBuffers st =
    { st with sources := expectedSTSources st, sourceBuffers := expectedSTBuffers st } := by
  simp only [SourceThread.generateBuffers, stProbeLoop_eq, stNidaqLoop_eq,
    List.nil_append, List.length_nil, length_flatMap_pair, List.length_range,
    Nat.zero_add]
  simp [expectedSTSources, expectedSTBuffers]

/-! ## Buffer clearing and thread starting: helper lemmas -/

theorem bufferDataAt_nil (k : Nat) : bufferDataAt [] k = [] := by
  simp [bufferDataAt]

theorem bufferDataAt_clearAt_self (l : List DataBuffer) (k : Nat) :
    bufferDataAt (clearAt l k) k = [] := by
  induction l generalizing k with
  | nil => simp [clearAt, bufferDataAt]
  | cons b bs ih =>
    cases k with
    | zero => simp [clearAt, bufferDataAt, DataBuffer.clearData]
    | succ k => simpa [clearAt, bufferDataAt] using ih k

theorem bufferDataAt_clearAt_ne (l : List DataBuffer) {k k' : Nat} (h : k ≠ k') :
    bufferDataAt (clearAt l k') k = bufferDataAt l k := by
  induction l generalizing k k' with
  | nil => simp [clearAt]
  | cons b bs ih =>
    cases k' with
    | zero =>
      cases k with
      | zero => exact absurd rfl h
      | succ k => simp [clearAt, bufferDataAt]
    | succ k' =>
      cases k with
      | zero => simp [clearAt, bufferDataAt]
      | succ k =>
        have hk : k ≠ k' := fun he => h (by rw [he])
        simpa [clearAt, bufferDataAt] using ih hk

theorem clearSourceBuffers_preserves (srcs : List SimulatedSource)
    (l : List DataBuffer) (k : Nat) (h : bufferDataAt l k = []) :
    bufferDataAt (clearSourceBuffers srcs l) k = [] := by
  induction srcs generalizing l with
  | nil => simpa [clearSourceBuffers]
  | cons src rest ih =>
    simp only [clearSourceBuffers, List.foldl_cons] at *
    cases hb : src.bufferIdx with
    | none => simpa [hb] using ih l h
    | some k' =>
      simp only [hb]
      rcases eq_or_ne k k' with rfl | hne
      · exact ih _ (bufferDataAt_clearAt_self l k)
      · exact ih _ (by rw [bufferDataAt_clearAt_ne l hne]; exact h)

theorem clearSourceBuffers_clears (srcs : List SimulatedSource)
    (l : List DataBuffer) (src : SimulatedSource) (hsrc : src ∈ srcs)
    (k : Nat) (hk : src.bufferIdx = some k) :
    bufferDataAt (clearSourceBuffers srcs l) k = [] := by
  induction srcs generalizing l with
  | nil => cases hsrc
  | cons a rest ih =>
    rcases List.mem_cons.mp hsrc with rfl | hmem
    · simp only [clearSourceBuffers, List.foldl_cons, hk]
      exact clearSourceBuffers_preserves rest _ k (bufferDataAt_clearAt_self l k)
    · simp only [clearSourceBuffers, List.foldl_cons]
      cases hb : a.bufferIdx with
      | none => exact ih l hmem
      | some k' => exact ih _ hmem

theorem startAll_running (ok : Nat → Bool) (i0 : Nat) (srcs : List SimulatedSource)
    (h : srcs.map SimulatedSource.running = List.replicate srcs.length false) :
    (startAll ok i0 srcs).map SimulatedSource.running
      = (List.range srcs.length).map fun k => ok (i0 + k) := by
  induction srcs generalizing i0 with
  | nil => simp [startAll]
  | cons src rest ih =>
    simp only [List.map_cons, List.length_cons, List.replicate_succ, List.cons.injEq] at h
    have hrun : (if ok i0 then { src with running := true } else src).running = ok i0 := by
      by_cases hc : ok i0 = true
      · simp [hc]
      · simp only [Bool.not_eq_true] at hc
        simp [hc, h.1]
    simp only [startAll, List.map_cons, hrun, List.length_cons,
      List.range_succ_eq_map, List.map_map]
    refine congrArg₂ _ rfl ?_
    rw [ih (i0 + 1) h.2]
    exact List.map_congr_left fun k _ => congrArg ok (by omega)

theorem startAll_true_running (i0 : Nat) (srcs : List SimulatedSource) :
    (startAll (fun _ => true) i0 srcs).map SimulatedSource.running
      = List.replicate srcs.length true := by
  induction srcs generalizing i0 with
  | nil => simp [startAll]
  | cons src rest ih => simp [startAll, List.replicate_succ, ih]

theorem startAllST_true_running (i0 : Nat) (srcs : List STSource) :
    (startAllST (fun _ => true) i0 srcs).map STSource.running
      = List.replicate srcs.length true := by
  induction srcs generalizing i0 with
  | nil => simp [startAllST]
  | cons src rest ih => simp [startAllST, List.replicate_succ, ih]

theorem clearLast_eq (l : List DataBuffer) (h : l ≠ []) :
    clearLast l = l.dropLast ++ [(l.getLast h).clearData] := by
  induction l with
  | nil => exact absurd rfl h
  | cons b bs ih =>
    cases bs with
    | nil => simp [clearLast]
    | cons b' bs' =>
      have hne : b' :: bs' ≠ [] := by simp
      simp [clearLast, ih hne, List.getLast_cons hne]

/-! ## Buffer-binding and sync-line pairing lemmas -/

theorem range_pair_flatMap (n : Nat) :
    ((List.range n).flatMap fun i => [2 * i, 2 * i + 1]) = List.range (2 * n) := by
  induction n with
  | zero => simp
  | succ n ih =>
    rw [List.range_succ, List.flatMap_append, ih]
    have h2 : 2 * (n + 1) = 2 * n + 1 + 1 := by omega
    rw [h2, List.range_succ, List.range_succ]
    simp

theorem expectedSources_length (cfg : PluginSettingsObject) :
    (expectedSources cfg).length = 2 * cfg.numProbes.toNat + cfg.numNIDAQ.toNat := by
  unfold expectedSources
  rw [List.length_append, length_flatMap_pair, List.length_range, List.length_map,
    List.length_range]

theorem expectedBuffers_length (cfg : PluginSettingsObject) :
    (expectedBuffers cfg).length = 2 * cfg.numProbes.toNat + cfg.numNIDAQ.toNat := by
  unfold expectedBuffers
  rw [List.length_append, length_flatMap_pair, List.length_range, List.length_map,
    List.length_range]

theorem expectedSources_bufferIdx (cfg : PluginSettingsObject) :
    (expectedSources cfg).map SimulatedSource.bufferIdx
      = (List.range (expectedSources cfg).length).map some := by
  have h1 : (expectedSources cfg).map SimulatedSource.bufferIdx
      = ((List.range cfg.numProbes.toNat).flatMap fun i => [some (2 * i), some (2 * i + 1)])
        ++ (List.range cfg.numNIDAQ.toNat).map fun j =>
          some (2 * cfg.numProbes.toNat + j) := by
    simp [expectedSources, List.map_flatMap, apSource, lfpSource, niSource]
  have h2 : (List.range (expectedSources cfg).length).map (some : Nat → Option Nat)
      = ((List.range cfg.numProbes.toNat).flatMap fun i => [some (2 * i), some (2 * i + 1)])
        ++ (List.range cfg.numNIDAQ.toNat).map fun j =>
          some (2 * cfg.numProbes.toNat + j) := by
    rw [expectedSources_length, List.range_add, List.map_append, ← range_pair_flatMap,
      List.map_flatMap, List.map_map]
    simp [Function.comp]
  rw [h1, h2]

theorem expectedSTSources_length (st : STState) :
    (expectedSTSources st).length = 2 * st.numProbes.toNat + st.numNIDevices.toNat := by
  unfold expectedSTSources
  rw [List.length_append, length_flatMap_pair, List.length_range, List.length_map,
    List.length_range]

theorem expectedSTBuffers_length (st : STState) :
    (expectedSTBuffers st).length = 2 * st.numProbes.toNat + st.numNIDevices.toNat := by
  unfold expectedSTBuffers
  rw [List.length_append, length_flatMap_pair, List.length_range, List.length_map,
    List.length_range]

theorem expectedSTSources_bufferIdx (st : STState) :
    (expectedSTSources st).map STSource.bufferIdx
      = (List.range (expectedSTSources st).length).map some := by
  have h1 : (expectedSTSources st).map STSource.bufferIdx
      = ((List.range st.numProbes.toNat).flatMap fun i => [some (2 * i), some (2 * i + 1)])
        ++ (List.range st.numNIDevices.toNat).map fun j =>
          some (2 * st.numProbes.toNat + j) := by
    simp [expectedSTSources, List.map_flatMap, npxAP, npxLFP, nidaqSource]
  have h2 : (List.range (expectedSTSources st).length).map (some : Nat → Option Nat)
      = ((List.range st.numProbes.toNat).flatMap fun i => [some (2 * i), some (2 * i + 1)])
        ++ (List.range st.numNIDevices.toNat).map fun j =>
          some (2 * st.numProbes.toNat + j) := by
    rw [expectedSTSources_length, List.range_add, List.map_append, ← range_pair_flatMap,
      List.map_flatMap, List.map_map]
    simp [Function.comp]
  rw [h1, h2]

theorem expectedEventChannels_stream (cfg : PluginSettingsObject) :
    (expectedEventChannels cfg).map EventChannel.stream = expectedDataStreams cfg := by
  simp [expectedEventChannels, expectedDataStreams, List.map_flatMap, List.map_map,
    apSync, lfpSync, niSync, Function.comp]

/-! ## Claim theorems -/

/-- C1: for every configuration, `SourceSimThread::updateSettings` emits,
for each probe index `i` in order, first the AP stream
`Probe-<letter(i)>-AP` at 30000 Hz, then the LFP stream
`Probe-<letter(i)>-LFP` at 2500 Hz, each with `channelsPerProbe` electrode
channels owned by the stream just emitted, and one TTL sync line per
stream; and afterwards, for each auxiliary-device index `j` in order, the
stream `Dev<j>` at 30000 Hz with `channelsPerAuxDevice` analog-input (ADC)
channels and one sync line.  The expected lists spell this layout out
literally (see `expectedDataStreams`, `expectedContinuousChannels`,
`expectedEventChannels`; `apStream`/`lfpStream`/`niStream` carry the
claimed names and rates, `apChannel`/`lfpChannel` are `ELECTRODE` typed,
`niChannel` is `ADC` typed, and every sync line is `TTL` typed and owned
by its probe band or device stream). -/
theorem SourceSimThread.updateSettings_emits_ordered_streams
    (prev : SimState) (cfg : PluginSettingsObject) :
    (SourceSimThread.updateSettings prev cfg).dataStreams = expectedDataStreams cfg ∧
    (SourceSimThread.updateSettings prev cfg).continuousChannels
      = expectedContinuousChannels cfg ∧
    (SourceSimThread.updateSettings prev cfg).eventChannels = expectedEventChannels cfg := by
  rw [SourceSimThread.updateSettings_spec]
  exact ⟨rfl, rfl, rfl⟩

/-- C2, counterexample: with `numProbes = 17` the builder does not reject
the configuration — it constructs a full topology of 34 streams, 34
sources and 34 buffers, contradicting the claim that no stream, source or
buffer entity is constructed. -/
theorem SourceSimThread.updateSettings_numProbes17_builds_topology :
    (SourceSimThread.updateSettings clearedSimState cfg17).dataStreams ≠ [] ∧
    (SourceSimThread.updateSettings clearedSimState cfg17).dataStreams.length = 34 ∧
    (SourceSimThread.updateSettings clearedSimState cfg17).sources.length = 34 ∧
    (SourceSimThread.updateSettings clearedSimState cfg17).sourceBuffers.length = 34 := by
  decide

/-- C2, amended: `updateSettings` performs no validation of `numProbes`.
A configuration with `numProbes = 17` is accepted and the builder emits
2 * 17 = 34 probe streams; the 17th probe (index 16) falls outside the
16-entry probe-letter table, so its streams are named `Probe--AP` and
`Probe--LFP` (empty letter). -/
theorem SourceSimThread.updateSettings_numProbes17_no_rejection (prev : SimState) :
    (SourceSimThread.updateSettings prev cfg17).dataStreams.length = 34 ∧
    ((SourceSimThread.updateSettings prev cfg17).dataStreams.map DataStream.name).getD 32 ""
      = "Probe--AP" ∧
    ((SourceSimThread.updateSettings prev cfg17).dataStreams.map DataStream.name).getD 33 ""
      = "Probe--LFP" := by
  rw [SourceSimThread.updateSettings_spec]
  decide

/-- C4: a topology rebuild clears every collection before adding any
entity, so the result contains only entities of the new generation: the
outcome of `SourceSimThread::updateSettings` is independent of whatever
the collections held before the call, and the outcome of
`SourceThread::generateBuffers` is independent of the previous `sources`
and `sourceBuffers` contents. -/
theorem rebuild_ignores_previous_topology (s₁ s₂ : SimState)
    (cfg : PluginSettingsObject) (t : STState) (ls : List STSource)
    (lb : List DataBuffer) :
    SourceSimThread.updateSettings s₁ cfg = SourceSimThread.updateSettings s₂ cfg ∧
    SourceThread.generateBuffers { t with sources := ls, sourceBuffers := lb }
      = SourceThread.generateBuffers t := by
  constructor
  · rw [SourceSimThread.updateSettings_spec, SourceSimThread.updateSettings_spec]
  · rw [SourceThread.generateBuffers_spec, SourceThread.generateBuffers_spec]
    simp [expectedSTSources, expectedSTBuffers]

/-- C8: `stopAcquisition` (both implementations) requests cooperative
cancellation on every source — after the call every source's
`exitRequested` flag is set — and returns `true` immediately without
waiting for any generator thread to terminate: the `running` flags and the
buffers are left exactly as they were. -/
theorem stopAcquisition_signals_without_waiting (s : SimState) (t : STState) :
    (SourceSimThread.stopAcquisition s).2 = true ∧
    ((SourceSimThread.stopAcquisition s).1.sources.map SimulatedSource.exitRequested)
      = List.replicate s.sources.length true ∧
    ((SourceSimThread.stopAcquisition s).1.sources.map SimulatedSource.running)
      = s.sources.map SimulatedSource.running ∧
    (SourceSimThread.stopAcquisition s).1.sourceBuffers = s.sourceBuffers ∧
    (SourceThread.stopAcquisition t).2 = true ∧
    ((SourceThread.stopAcquisition t).1.sources.map STSource.exitRequested)
      = List.replicate t.sources.length true ∧
    ((SourceThread.stopAcquisition t).1.sources.map STSource.running)
      = t.sources.map STSource.running ∧
    (SourceThread.stopAcquisition t).1.sourceBuffers = t.sourceBuffers := by
  refine ⟨rfl, ?_, ?_, rfl, rfl, ?_, ?_, rfl⟩ <;>
    simp [SourceSimThread.stopAcquisition, SourceThread.stopAcquisition,
      List.map_map, Function.comp_def, List.map_const']

/-- C9: rebuilding the topology twice with identical configuration values
produces identical ordered lists of stream, channel and sync-line
descriptors — the rebuild is a deterministic function of the
configuration. -/
theorem SourceSimThread.updateSettings_deterministic
    (s : SimState) (cfg : PluginSettingsObject) :
    (SourceSimThread.updateSettings (SourceSimThread.updateSettings s cfg) cfg).dataStreams
      = (SourceSimThread.updateSettings s cfg).dataStreams ∧
    (SourceSimThread.updateSettings (SourceSimThread.updateSettings s cfg) cfg).continuousChannels
      = (SourceSimThread.updateSettings s cfg).continuousChannels ∧
    (SourceSimThread.updateSettings (SourceSimThread.updateSettings s cfg) cfg).eventChannels
      = (SourceSimThread.updateSettings s cfg).eventChannels := by
  rw [SourceSimThread.updateSettings_spec, SourceSimThread.updateSettings_spec]
  exact ⟨rfl, rfl, rfl⟩

/-- C3, counterexample: in the concrete two-source `SourceThread` topology
`dirtySTState` (source 0 bound to buffer 0, source 1 bound to buffer 1,
both buffers holding unread samples), `startAcquisition` leaves buffer 0
dirty — it clears only the last ring buffer — contradicting the claim that
it first clears every ring buffer bound to a source. -/
theorem SourceThread.startAcquisition_leaves_first_buffer_dirty :
    (dirtySTState.sources.map STSource.bufferIdx = [some 0, some 1]) ∧
    bufferDataAt (SourceThread.startAcquisition (fun _ => true) dirtySTState).1.sourceBuffers 0
      = [5] ∧
    bufferDataAt (SourceThread.startAcquisition (fun _ => true) dirtySTState).1.sourceBuffers 1
      = [] := by
  decide

/-- C3, amended: `SourceSimThread::startAcquisition` clears the ring
buffer bound to every source and then starts every generator thread
(every source is running afterwards when every launch succeeds), but
`SourceThread::startAcquisition` clears only the last ring buffer —
`sourceBuffers.getLast()->clear()` — leaving every other buffer untouched
before starting the generators. -/
theorem startAcquisition_clear_discipline (ok : Nat → Bool) (s : SimState)
    (t : STState) (ht : t.sourceBuffers ≠ []) :
    (∀ src ∈ s.sources, ∀ k, src.bufferIdx = some k →
      bufferDataAt (SourceSimThread.startAcquisition ok s).1.sourceBuffers k = []) ∧
    ((SourceSimThread.startAcquisition (fun _ => true) s).1.sources.map
        SimulatedSource.running
      = List.replicate s.sources.length true) ∧
    ((SourceThread.startAcquisition ok t).1.sourceBuffers
      = t.sourceBuffers.dropLast ++ [(t.sourceBuffers.getLast ht).clearData]) ∧
    ((SourceThread.startAcquisition (fun _ => true) t).1.sources.map STSource.running
      = List.replicate t.sources.length true) := by
  refine ⟨?_, ?_, ?_, ?_⟩
  · intro src hs k hk
    simpa [SourceSimThread.startAcquisition] using
      clearSourceBuffers_clears s.sources s.sourceBuffers src hs k hk
  · simpa [SourceSimThread.startAcquisition] using
      startAll_true_running 0 s.sources
  · simpa [SourceThread.startAcquisition] using clearLast_eq t.sourceBuffers ht
  · simpa [SourceThread.startAcquisition] using
      startAllST_true_running 0 t.sources

/-- C3, witness for the amended theorem, at the concrete dirty states:
`SourceSimThread::startAcquisition` empties the buffer bound to the first
source of `dirtySimState`, and on `dirtySTState` the `SourceThread`
version yields exactly "first buffer untouched, last buffer cleared". -/
theorem startAcquisition_clear_discipline_witness :
    bufferDataAt
      (SourceSimThread.startAcquisition (fun _ => true) dirtySimState).1.sourceBuffers 0
      = [] ∧
    (SourceThread.startAcquisition (fun _ => true) dirtySTState).1.sourceBuffers
      = dirtySTState.sourceBuffers.dropLast
        ++ [(dirtySTState.sourceBuffers.getLast (by decide)).clearData] := by
  have h := startAcquisition_clear_discipline (fun _ => true) dirtySimState dirtySTState
    (by decide)
  exact ⟨h.1 (apSource cfgTwo 0 0) (by decide) 0 (by decide), h.2.2.1⟩

/-- C5, counterexample: a run in which the single generator of
`idleSimState` fails to launch (`launchOk` is constantly false, and indeed
the source is not running afterwards) yet `startAcquisition` still returns
`true`, contradicting the claim that `start()` returns failure whenever a
generator fails to start. -/
theorem SourceSimThread.startAcquisition_true_despite_launch_failure :
    (SourceSimThread.startAcquisition (fun _ => false) idleSimState).2 = true ∧
    ((SourceSimThread.startAcquisition (fun _ => false) idleSimState).1.sources.map
        SimulatedSource.running)
      = [false] := by
  decide

/-- C5, amended: both `startAcquisition` implementations return `true`
unconditionally — the launch outcome of the generator threads is never
observed, so no failure is reported and nothing is rolled back.  On a
freshly built (all idle) topology, source `i` is running afterwards
exactly when its launch succeeded. -/
theorem startAcquisition_always_returns_true (ok : Nat → Bool) (s : SimState)
    (t : STState) :
    (SourceSimThread.startAcquisition ok s).2 = true ∧
    (SourceThread.startAcquisition ok t).2 = true ∧
    (s.sources.map SimulatedSource.running = List.replicate s.sources.length false →
      (SourceSimThread.startAcquisition ok s).1.sources.map SimulatedSource.running
        = (List.range s.sources.length).map ok) := by
  refine ⟨rfl, rfl, fun h => ?_⟩
  have hs := startAll_running ok 0 s.sources h
  simp only [Nat.zero_add] at hs
  simpa [SourceSimThread.startAcquisition] using hs

/-- C5, witness for the amended theorem: on the two-source idle state
`dirtySimState` with every launch succeeding, `startAcquisition` returns
`true` and both sources are running. -/
theorem startAcquisition_always_returns_true_witness :
    (SourceSimThread.startAcquisition (fun _ => true) dirtySimState).2 = true ∧
    ((SourceSimThread.startAcquisition (fun _ => true) dirtySimState).1.sources.map
        SimulatedSource.running)
      = [true, true] := by
  have h := startAcquisition_always_returns_true (fun _ => true) dirtySimState dirtySTState
  exact ⟨h.1, (h.2.2 (by decide)).trans (by decide)⟩

/-- C6, counterexample: `activeClkSimState` holds one source whose sync
clock is active (`timerRunning = true`) and whose nominal rate is 0, yet
`SourceSimThread::updateClkFreq 5 1` leaves the rate at 0 instead of
updating it to 5 — the update loop in that implementation is commented
out, so no source is updated. -/
theorem SourceSimThread.updateClkFreq_ignores_active_source :
    (activeClkSimState.sources.map SimulatedSource.timerRunning = [true]) ∧
    ((SourceSimThread.updateClkFreq 5 1 activeClkSimState).sources.map
        SimulatedSource.clkFreq = [0]) ∧
    (5 : Int) ≠ 0 := by
  decide

/-- C6, amended: `SourceThread::updateClkFreq(freq, tol)` sets the nominal
toggle rate and accepted jitter for exactly the sources whose sync clock
is active and changes nothing else (clock-erased sources, the buffers and
the remaining state are untouched), while
`SourceSimThread::updateClkFreq` changes no source state at all — its
forwarding loop is commented out. -/
theorem updateClkFreq_semantics (freq : Int) (tol : Rat) (s : SimState) (st : STState) :
    SourceSimThread.updateClkFreq freq tol s = s ∧
    ((SourceThread.updateClkFreq freq tol st).sources.map STSource.clkFreq
      = st.sources.map fun src => if src.timerRunning then freq else src.clkFreq) ∧
    ((SourceThread.updateClkFreq freq tol st).sources.map STSource.clkTol
      = st.sources.map fun src => if src.timerRunning then tol else src.clkTol) ∧
    ((SourceThread.updateClkFreq freq tol st).sources.map STSource.eraseClk
      = st.sources.map STSource.eraseClk) ∧
    (SourceThread.updateClkFreq freq tol st).sourceBuffers = st.sourceBuffers ∧
    (SourceThread.updateClkFreq freq tol st).numProbes = st.numProbes := by
  refine ⟨rfl, ?_, ?_, ?_, rfl, rfl⟩ <;>
  · simp only [SourceThread.updateClkFreq, List.map_map]
    refine List.map_congr_left fun src _ => ?_
    by_cases h : src.timerRunning <;>
      simp [h, Function.comp, STSource.setClkFreq, STSource.eraseClk]

/-- C7, counterexample: on the default-constructed `SourceThread` state
(6 probes, 8 NIDAQ channels), stream index 12 is an auxiliary-device
stream (12 is not below 2 * numProbes), and `getNumTTLOutputs` reports 8
TTL outputs for it, not the single sync line the claim requires. -/
theorem SourceThread.getNumTTLOutputs_aux_reports_channels :
    SourceThread.getNumTTLOutputs SourceThread.defaultState 12 = 8 ∧
    SourceThread.getNumTTLOutputs SourceThread.defaultState 12 ≠ 1 ∧
    ¬ (12 : Int) < 2 * SourceThread.defaultState.numProbes := by
  decide

/-- C7, amended: the `SourceSimThread` topology builder creates exactly
one TTL sync line per stream — the sync lines pair off one-to-one, in
order, with the data streams, and every one of them is TTL — and
`SourceThread::getNumTTLOutputs` reports 1 for every probe band stream
(index below `2 * numProbes`) but reports `numChannelsPerNIDAQDevice`,
not 1, for auxiliary-device stream indices. -/
theorem syncLine_per_stream_semantics (prev : SimState) (cfg : PluginSettingsObject)
    (st : STState) :
    ((SourceSimThread.updateSettings prev cfg).eventChannels.map EventChannel.stream
      = (SourceSimThread.updateSettings prev cfg).dataStreams) ∧
    (∀ e ∈ (SourceSimThread.updateSettings prev cfg).eventChannels,
      e.channelType = EventChannelType.TTL) ∧
    (∀ idx : Int, idx < 2 * st.numProbes →
      SourceThread.getNumTTLOutputs st idx = 1) ∧
    (∀ idx : Int, ¬ idx < 2 * st.numProbes →
      SourceThread.getNumTTLOutputs st idx = st.numChannelsPerNIDAQDevice) := by
  refine ⟨?_, ?_, ?_, ?_⟩
  · rw [SourceSimThread.updateSettings_spec]
    exact expectedEventChannels_stream cfg
  · rw [SourceSimThread.updateSettings_spec]
    intro e he
    simp only [expectedEventChannels, List.mem_append, List.mem_flatMap,
      List.mem_map, List.mem_cons, List.not_mem_nil, or_false] at he
    rcases he with ⟨i, _, rfl | rfl⟩ | ⟨i, _, rfl⟩ <;> rfl
  · intro idx h
    simp [SourceThread.getNumTTLOutputs, h]
  · intro idx h
    simp [SourceThread.getNumTTLOutputs, h]

/-- C7, witness for the amended theorem at the concrete configuration
`cfgSmall` and member state `stSmall`: the built sync lines pair off with
the streams, the AP sync line of probe 0 is TTL, a probe stream index
reports one TTL output and the auxiliary index 2 reports 3 (its channel
count). -/
theorem syncLine_per_stream_semantics_witness :
    ((SourceSimThread.updateSettings clearedSimState cfgSmall).eventChannels.map
        EventChannel.stream
      = (SourceSimThread.updateSettings clearedSimState cfgSmall).dataStreams) ∧
    (apSync 0).channelType = EventChannelType.TTL ∧
    SourceThread.getNumTTLOutputs stSmall 0 = 1 ∧
    SourceThread.getNumTTLOutputs stSmall 2 = 3 := by
  have h := syncLine_per_stream_semantics clearedSimState cfgSmall stSmall
  exact ⟨h.1, h.2.1 (apSync 0) (by decide), h.2.2.1 0 (by decide), h.2.2.2 2 (by decide)⟩

/-- C10: every buffer created by `SourceSimThread::updateSettings` has the
hard-coded capacity 48000 and every buffer created by
`SourceThread::generateBuffers` has the hard-coded capacity 1000,
independent of the configuration; in both builders the source and buffer
collections have equal length and source `i` is bound to buffer `i` — the
buffer created immediately after it. -/
theorem buffer_capacity_and_binding (prev : SimState) (cfg : PluginSettingsObject)
    (st : STState) :
    (∀ b ∈ (SourceSimThread.updateSettings prev cfg).sourceBuffers,
      b.bufferSize = 48000) ∧
    (∀ b ∈ (SourceThread.generateBuffers st).sourceBuffers, b.bufferSize = 1000) ∧
    (SourceSimThread.updateSettings prev cfg).sources.length
      = (SourceSimThread.updateSettings prev cfg).sourceBuffers.length ∧
    (SourceThread.generateBuffers st).sources.length
      = (SourceThread.generateBuffers st).sourceBuffers.length ∧
    ((SourceSimThread.updateSettings prev cfg).sources.map SimulatedSource.bufferIdx
      = (List.range (SourceSimThread.updateSettings prev cfg).sources.length).map some) ∧
    ((SourceThread.generateBuffers st).sources.map STSource.bufferIdx
      = (List.range (SourceThread.generateBuffers st).sources.length).map some) := by
  refine ⟨?_, ?_, ?_, ?_, ?_, ?_⟩
  · rw [SourceSimThread.updateSettings_spec]
    intro b hb
    simp only [expectedBuffers, List.mem_append, List.mem_flatMap, List.mem_map,
      List.mem_cons, List.not_mem_nil, or_false] at hb
    rcases hb with ⟨i, _, rfl | rfl⟩ | ⟨i, _, rfl⟩ <;> rfl
  · rw [SourceThread.generateBuffers_spec]
    intro b hb
    simp only [expectedSTBuffers, List.mem_append, List.mem_flatMap, List.mem_map,
      List.mem_cons, List.not_mem_nil, or_false] at hb
    rcases hb with ⟨i, _, rfl | rfl⟩ | ⟨i, _, rfl⟩ <;> rfl
  · rw [SourceSimThread.updateSettings_spec]
    rw [expectedSources_length, expectedBuffers_length]
  · rw [SourceThread.generateBuffers_spec]
    rw [expectedSTSources_length, expectedSTBuffers_length]
  · rw [SourceSimThread.updateSettings_spec]
    exact expectedSources_bufferIdx cfg
  · rw [SourceThread.generateBuffers_spec]
    exact expectedSTSources_bufferIdx st

/-- C10, witness at the concrete inputs `cfgSmall` and `stSmall`: the
first buffer of each build has the hard-coded capacity (48000 and 1000
respectively), and the source/buffer index alignment holds. -/
theorem buffer_capacity_and_binding_witness :
    (probeBuffer cfgSmall).bufferSize = 48000 ∧
    ({ numChannels := stSmall.numChannelsPerProbe, bufferSize := 1000,
       data := [] } : DataBuffer).bufferSize = 1000 ∧
    ((SourceSimThread.updateSettings clearedSimState cfgSmall).sources.map
        SimulatedSource.bufferIdx
      = (List.range
          (SourceSimThread.updateSettings clearedSimState cfgSmall).sources.length).map
        some) := by
  have h := buffer_capacity_and_binding clearedSimState cfgSmall stSmall
  exact ⟨h.1 (probeBuffer cfgSmall) (by decide),
    h.2.1 { numChannels := stSmall.numChannelsPerProbe, bufferSize := 1000, data := [] }
      (by decide),
    h.2.2.2.2.1⟩
